import Mathlib

/-!
Verification of the credential-and-session lifecycle of the
`video-platform-backend` repository (Express/Mongoose user controller).

The embedding mirrors `src/controllers/user.controller.js`: the four
session-relevant HTTP handlers (`registerUser`, `loginUser`, `logoutUser`,
`refreshAccessToken`) and the token-issuing helper
`generateAccessAndRefreshTokens`.  The document store, the JWT codec and
the Mongoose model methods live outside the provided sources, so those
collaborators are modelled from the specification (each such definition is
marked in its doc comment).  Handlers are state-passing functions: they
take the database state and return the new state together with either a
response value or an `ApiError`, mirroring the fact that a thrown error
does not roll back database writes that already happened.
-/

namespace VideoPlatform

/-- Mirrors the `ApiError(statusCode, message)` exception class used by the
controllers: an HTTP status code together with a message string. -/
structure ApiError where
  statusCode : Nat
  message : String
deriving DecidableEq, Repr

instance {ε α : Type} [DecidableEq ε] [DecidableEq α] : DecidableEq (Except ε α)
  | Except.ok x, Except.ok y =>
    if h : x = y then Decidable.isTrue (h ▸ rfl)
    else Decidable.isFalse (fun hc => h (Except.ok.inj hc))
  | Except.ok _, Except.error _ => Decidable.isFalse (fun hc => Except.noConfusion hc)
  | Except.error _, Except.ok _ => Decidable.isFalse (fun hc => Except.noConfusion hc)
  | Except.error x, Except.error y =>
    if h : x = y then Decidable.isTrue (h ▸ rfl)
    else Decidable.isFalse (fun hc => h (Except.error.inj hc))

/-- Modelled from the spec: the error taxonomy of section 7, as a kind.
`BadRequest` is rendered by the controllers as status 400, `Unauthenticated`
as 401, `NotFound` as 404, `Conflict` as 409 and `Internal` as 500. -/
inductive ErrorKind where
  | badRequest
  | unauthenticated
  | notFound
  | conflict
  | internal
deriving DecidableEq, Repr

/-- Modelled from the spec: classification of a raised `ApiError` under the
error taxonomy of section 7, via the status code the controllers attach. -/
def kindOf (e : ApiError) : ErrorKind :=
  match e.statusCode with
  | 400 => ErrorKind.badRequest
  | 401 => ErrorKind.unauthenticated
  | 404 => ErrorKind.notFound
  | 409 => ErrorKind.conflict
  | _ => ErrorKind.internal

/-- Modelled from the spec: a token produced by the Token Codec
(`jsonwebtoken` in the source; `user.model.js` is not among the provided
files).  A token bears the identity of the user in its payload (`uid`), the
secret it was signed with, its expiry instant (`exp`), and a freshness
nonce distinguishing separate signing calls (the codec mints fresh tokens
on every call).  Byte-for-byte equality of token strings is modelled as
decidable equality of this structure. -/
structure Token where
  uid : Nat
  secret : String
  exp : Nat
  nonce : Nat
deriving DecidableEq, Repr

/-- Modelled from the spec: `sign(payload, secret, ttl)` of the Token
Codec, at time `now` and with freshness nonce `nonce`. -/
def sign (uid : Nat) (secret : String) (ttl now nonce : Nat) : Token :=
  { uid := uid, secret := secret, exp := now + ttl, nonce := nonce }

/-- Modelled from the spec: `verify(token, secret)` of the Token Codec at
time `now`: checks signature (secret match) and expiry, returning the user
identity embedded in the payload on success. -/
def verify (t : Token) (secret : String) (now : Nat) : Option Nat :=
  if t.secret = secret ∧ now ≤ t.exp then some t.uid else none

/-- Modelled from the spec: the message carried by a `jsonwebtoken`
verification failure, used by the catch-all rewrap in
`refreshAccessToken`. -/
def jwtFailMessage (t : Token) (secret : String) : String :=
  if t.secret = secret then "jwt expired" else "invalid signature"

/-- A document of the `User` collection, restricted to the fields the
controllers touch.  `refreshToken = none` models the sentinel absent value
(field unset at creation, or set to `null` by logout). -/
structure User where
  id : Nat
  username : String
  email : String
  fullName : String
  password : String
  avatar : String
  coverImage : String
  refreshToken : Option Token
deriving DecidableEq, Repr

/-- The persisted state of the user collection, together with the id
generator of the store and the freshness counter of the token codec. -/
structure DB where
  users : List User
  nextId : Nat
  nextNonce : Nat
deriving DecidableEq, Repr

/-- `User.findById(id)`: first document with the given id. -/
def findById (db : DB) (id : Nat) : Option User :=
  db.users.find? (fun u => u.id = id)

/-- `User.findOne({ $or: [{ username }, { email }] })`: first document
matching either supplied field; a branch whose value is absent
(`undefined`) matches nothing. -/
def findOneByUsernameOrEmail (db : DB) (username email : Option String) :
    Option User :=
  db.users.find? (fun u =>
    (match username with | some s => u.username = s | none => false) ||
    (match email with | some s => u.email = s | none => false))

/-- Replace the document with the id of `u` by `u` (persistence of a
mutated document). -/
def replaceUser (users : List User) (u : User) : List User :=
  users.map (fun v => if v.id = u.id then u else v)

/-- Modelled from the spec: the environment of collaborators the handlers
close over — the two signing secrets and expiries consumed from the
environment, the full-record schema validation run by `save` unless
`validateBeforeSave: false` is passed, the media-upload collaborator, and
fault-injection flags for the two infrastructure failures the spec names
(token signing failure, persistence failure). -/
structure Env where
  refreshSecret : String
  accessSecret : String
  refreshTtl : Nat
  accessTtl : Nat
  validator : User → Bool
  upload : String → Option String
  signFails : Bool
  saveFails : Bool

/-- `user.save({ validateBeforeSave })`: persists the mutated document;
runs the full-record validator only when `validateBeforeSave` is true;
fails when validation rejects or the store faults. -/
def saveUser (env : Env) (db : DB) (u : User) (validateBeforeSave : Bool) :
    Option DB :=
  if env.saveFails then none
  else if validateBeforeSave && !(env.validator u) then none
  else some { db with users := replaceUser db.users u }

/-- The body of the `try` block of `generateAccessAndRefreshTokens`:
look the user up by id, mint an access token and a refresh token, store
the refresh token on the user record and persist it with
`validateBeforeSave: false`.  Any failure (missing user, signing fault,
persistence fault) is an anonymous thrown error, mapped to `none`. -/
def generateTokensTry (env : Env) (now : Nat) (db : DB) (userId : Nat) :
    Option ((Token × Token) × DB) :=
  match findById db userId with
  | none => none
  | some user =>
    if env.signFails then none
    else
      let accessToken := sign user.id env.accessSecret env.accessTtl now db.nextNonce
      let refreshToken := sign user.id env.refreshSecret env.refreshTtl now (db.nextNonce + 1)
      let db1 : DB := { db with nextNonce := db.nextNonce + 2 }
      match saveUser env db1 { user with refreshToken := some refreshToken } false with
      | none => none
      | some db2 => some ((accessToken, refreshToken), db2)

/-- `generateAccessAndRefreshTokens(userId)` (the `issue` operation of the
spec): the `try` body above, with every failure caught and rethrown as
`ApiError(500, "something went wrong while generating refresh and access
tokens")`. -/
def generateAccessAndRefreshTokens (env : Env) (now : Nat) (db : DB)
    (userId : Nat) : Except ApiError ((Token × Token) × DB) :=
  match generateTokensTry env now db userId with
  | some r => Except.ok r
  | none => Except.error
      ⟨500, "something went wrong while generating refresh and access tokens"⟩

/-- Modelled from the spec: the one-way password hashing applied by the
User Store when a plaintext password is persisted (`user.model.js` is not
among the provided files). -/
def hashPw (p : String) : String := "hashed:" ++ p

/-- Modelled from the spec: `user.isPasswordCorrect(plaintext)` — the
verification function of the User Store comparing a plaintext candidate
against the stored hash, returning a boolean. -/
def isPasswordCorrect (u : User) (p : String) : Bool := hashPw p = u.password

/-- The safe projection `select("-password -refreshToken")`: the user
document with the credential and session fields removed. -/
structure SafeUser where
  id : Nat
  username : String
  email : String
  fullName : String
  avatar : String
  coverImage : String
deriving DecidableEq, Repr

/-- Apply the safe projection to a user document. -/
def selectSafe (u : User) : SafeUser :=
  { id := u.id, username := u.username, email := u.email,
    fullName := u.fullName, avatar := u.avatar, coverImage := u.coverImage }

/-- JavaScript falsiness of an optional string: `undefined` and the empty
string are falsy. -/
def falsyStr : Option String → Bool
  | none => true
  | some s => s = ""

/-- The response body of `loginUser`: HTTP status, the re-fetched safe
projection of the user (the source does not check the re-fetch for null,
hence the option), and the two tokens (placed both in cookies and in the
JSON body by the source; the cookie values equal the body values). -/
structure LoginResponse where
  status : Nat
  user : Option SafeUser
  accessToken : Token
  refreshToken : Token
deriving DecidableEq, Repr

/-- `loginUser`: guard that a username or email was supplied, look the user
up by either field, verify the password, issue a token pair, and respond
with the safe projection and both tokens.  A failure of `issue` propagates
unchanged (there is no try/catch in this handler). -/
def loginUser (env : Env) (now : Nat) (db : DB)
    (email username password : Option String) :
    DB × Except ApiError LoginResponse :=
  if falsyStr username && falsyStr email then
    (db, Except.error ⟨400, "username or email is required"⟩)
  else
    match findOneByUsernameOrEmail db username email with
    | none => (db, Except.error ⟨404, "user does not exist"⟩)
    | some user =>
      match password with
      | none => (db, Except.error ⟨500, "data and hash arguments required"⟩)
      | some p =>
        if !(isPasswordCorrect user p) then
          (db, Except.error ⟨401, "invalid user credentials"⟩)
        else
          match generateAccessAndRefreshTokens env now db user.id with
          | Except.error e => (db, Except.error e)
          | Except.ok ((accessToken, refreshToken), db1) =>
            (db1, Except.ok
              { status := 200,
                user := (findById db1 user.id).map selectSafe,
                accessToken := accessToken,
                refreshToken := refreshToken })

/-- The response of `logoutUser`: HTTP status (the handler also clears the
two token cookies). -/
structure LogoutResponse where
  status : Nat
deriving DecidableEq, Repr

/-- `logoutUser` (the `revoke` operation of the spec):
`findByIdAndUpdate(userId, { $set: { refreshToken: null } })` — clears the
stored refresh token of the matching user to the sentinel absent value; a
missing user yields a null result the source ignores; always responds
200. -/
def logoutUser (db : DB) (userId : Nat) : DB × Except ApiError LogoutResponse :=
  ({ db with users := db.users.map (fun u =>
      if u.id = userId then { u with refreshToken := none } else u) },
   Except.ok { status := 200 })

/-- The response body of `refreshAccessToken` on success: HTTP status and
the fresh token pair. -/
structure RefreshResponse where
  status : Nat
  accessToken : Token
  refreshToken : Token
deriving DecidableEq, Repr

/-- The TypeError message raised in the success branch of
`refreshAccessToken`: the source calls `res.staus(200)` and `staus` is not
a method of the response object. -/
def stausTypeErrorMessage : String := "res.staus is not a function"

/-- The `try` block of `refreshAccessToken`, with the surrounding `catch`
applied: any error thrown inside is rethrown as
`ApiError(401, error.message)`.  Steps: verify signature/expiry of the
incoming token; look up the user by the id in the payload; compare the
incoming token against the stored one; issue a fresh pair; then build the
response — the response build calls `res.staus(200)`, which throws a
TypeError after the new pair has already been persisted, so the catch
turns even the success path into a 401 rejection. -/
def refreshAccessTokenTry (env : Env) (now : Nat) (db : DB)
    (incoming : Token) : DB × Except ApiError RefreshResponse :=
  match verify incoming env.refreshSecret now with
  | none => (db, Except.error ⟨401, jwtFailMessage incoming env.refreshSecret⟩)
  | some uid =>
    match findById db uid with
    | none => (db, Except.error ⟨401, "invalid refresh token"⟩)
    | some user =>
      if user.refreshToken ≠ some incoming then
        (db, Except.error ⟨401, "refresh token is expired or used"⟩)
      else
        match generateAccessAndRefreshTokens env now db user.id with
        | Except.error e => (db, Except.error ⟨401, e.message⟩)
        | Except.ok (_, db1) =>
          (db1, Except.error ⟨401, stausTypeErrorMessage⟩)

/-- `refreshAccessToken` (the `verifyRefresh` operation of the spec): take
the incoming token from the cookie, falling back to the request body;
reject 401 "unauthorized request" when neither is supplied; otherwise run
the `try` block above. -/
def refreshAccessToken (env : Env) (now : Nat) (db : DB)
    (cookieToken bodyToken : Option Token) :
    DB × Except ApiError RefreshResponse :=
  match cookieToken.orElse (fun _ => bodyToken) with
  | none => (db, Except.error ⟨401, "unauthorized request"⟩)
  | some incoming => refreshAccessTokenTry env now db incoming

/-- The request of `registerUser`: the four body fields and the two
uploaded file paths, each possibly absent. -/
structure RegisterReq where
  fullName : Option String
  username : Option String
  email : Option String
  password : Option String
  avatarPath : Option String
  coverImagePath : Option String
deriving DecidableEq, Repr

/-- The response body of `registerUser`: HTTP status 201 and the safe
projection of the created user. -/
structure RegisterResponse where
  status : Nat
  user : SafeUser
deriving DecidableEq, Repr

/-- The JavaScript `String.prototype.trim` builtin: strips leading and
trailing whitespace.  (Defined structurally over the character list; the
library `String.trim` has the same meaning but is defined by well-founded
recursion over byte positions and is inconvenient to evaluate.) -/
def jsTrim (s : String) : String :=
  String.mk
    (((s.data.dropWhile Char.isWhitespace).reverse.dropWhile
        Char.isWhitespace).reverse)

/-- The JavaScript `String.prototype.toLowerCase` builtin, character-wise
lowering over the character list. -/
def jsToLowerCase (s : String) : String :=
  String.mk (s.data.map Char.toLower)

/-- The predicate of the required-field check of `registerUser`:
`field?.trim() === ""`.  On an absent field, `field?.trim()` evaluates to
`undefined`, and `undefined === ""` is false, so an absent field does not
trigger the check. -/
def fieldBlank : Option String → Bool
  | none => false
  | some s => jsTrim s = ""

/-- Modelled from the spec: `uploadOnCloudinary(localFilePath)` — the
media-upload collaborator; returns null on an absent path or a failed
upload, otherwise the hosted URL of the file. -/
def uploadOnCloudinary (env : Env) (path : Option String) : Option String :=
  match path with
  | none => none
  | some p => env.upload p

/-- The tail of `registerUser` after `User.create`: re-fetch the created
record by id with the safe projection (`select("-password
-refreshToken")`), reject 500 if the re-fetch found nothing, otherwise
respond 201 with the projection. -/
def finishRegister (db1 : DB) (newId : Nat) :
    DB × Except ApiError RegisterResponse :=
  match findById db1 newId with
  | none => (db1, Except.error ⟨500, "unable to register user"⟩)
  | some createdUser =>
    (db1, Except.ok { status := 201, user := selectSafe createdUser })

/-- The continuation of `registerUser` after the required-field check:
duplicate-user lookup, avatar-path check, uploads, `User.create` (which
stores no refresh token: the session field is left unset), re-fetch with
the safe projection, and the 201 response.  `User.create` with an absent
username throws a TypeError on `username.toLowerCase()`, and with another
required field absent fails schema validation; both surface as generic
thrown errors. -/
def registerFromLookup (env : Env) (db : DB) (req : RegisterReq) :
    DB × Except ApiError RegisterResponse :=
  match findOneByUsernameOrEmail db req.username req.email with
  | some _ =>
    (db, Except.error ⟨409, "user with this email or username already exists"⟩)
  | none =>
    match req.avatarPath with
    | none => (db, Except.error ⟨400, "avatar file is required"⟩)
    | some avatarPath =>
      match env.upload avatarPath with
      | none => (db, Except.error ⟨400, "avatar file is required cloudinary"⟩)
      | some avatarUrl =>
        let coverImageUrl := (uploadOnCloudinary env req.coverImagePath).getD ""
        match req.username with
        | none => (db, Except.error
            ⟨500, "Cannot read properties of undefined (reading toLowerCase)"⟩)
        | some uname =>
          match req.fullName, req.email, req.password with
          | some fullName, some email, some password =>
            let newUser : User :=
              { id := db.nextId, username := jsToLowerCase uname, email := email,
                fullName := fullName, password := hashPw password,
                avatar := avatarUrl, coverImage := coverImageUrl,
                refreshToken := none }
            finishRegister
              { db with users := db.users ++ [newUser], nextId := db.nextId + 1 }
              newUser.id
          | _, _, _ => (db, Except.error ⟨500, "User validation failed"⟩)

/-- `registerUser`: the required-field check
`[fullName, username, email, password].some((field) => field?.trim() === "")`
followed by the continuation above. -/
def registerUser (env : Env) (db : DB) (req : RegisterReq) :
    DB × Except ApiError RegisterResponse :=
  if [req.fullName, req.username, req.email, req.password].any fieldBlank then
    (db, Except.error ⟨400, "all fields are required"⟩)
  else registerFromLookup env db req

/-- Well-formedness of a database state with respect to the token codec:
every refresh token stored on a user record was minted by an earlier
signing call, i.e. carries a nonce below the freshness counter.  This
holds of every state reachable by the operations (fresh nonces are taken
from and then bump the counter) and is the hypothesis under which a newly
minted token is distinct from every stored one. -/
def noncesFresh (db : DB) : Bool :=
  db.users.all (fun u =>
    match u.refreshToken with
    | none => true
    | some t => t.nonce < db.nextNonce)

/-- A concrete environment: distinct access and refresh secrets, an access
expiry strictly shorter than the refresh expiry, a validator accepting
every record, a media host accepting every upload, and no infrastructure
faults. -/
def envEx : Env :=
  { refreshSecret := "rsec", accessSecret := "asec", refreshTtl := 10,
    accessTtl := 1, validator := fun _ => true,
    upload := fun p => some ("url:" ++ p),
    signFails := false, saveFails := false }

/-- A concrete refresh token for user 1, signed with the refresh secret of
`envEx` and unexpired at time 0. -/
def tokEx : Token := { uid := 1, secret := "rsec", exp := 10, nonce := 0 }

/-- A second refresh token for user 1: cryptographically valid under
`envEx` but different from `tokEx` (a later issuance). -/
def tokStaleEx : Token := { uid := 1, secret := "rsec", exp := 10, nonce := 5 }

/-- A concrete user whose record currently stores `tokEx`. -/
def aliceEx : User :=
  { id := 1, username := "alice", email := "alice@x.com", fullName := "Alice A",
    password := hashPw "p1", avatar := "url:a.png", coverImage := "",
    refreshToken := some tokEx }

/-- A concrete database holding `aliceEx`. -/
def dbEx : DB := { users := [aliceEx], nextId := 2, nextNonce := 1 }

/-- The access token `generateAccessAndRefreshTokens envEx 0 dbEx 1`
mints. -/
def aTokEx : Token := { uid := 1, secret := "asec", exp := 1, nonce := 1 }

/-- The refresh token `generateAccessAndRefreshTokens envEx 0 dbEx 1`
mints. -/
def rTokEx : Token := { uid := 1, secret := "rsec", exp := 10, nonce := 2 }

/-- The database state after `generateAccessAndRefreshTokens envEx 0 dbEx
1`. -/
def dbIssuedEx : DB :=
  { users := [{ aliceEx with refreshToken := some rTokEx }],
    nextId := 2, nextNonce := 3 }

/-- A concrete well-formed registration request. -/
def regReqEx : RegisterReq :=
  { fullName := some "Bob B", username := some "Bob", email := some "bob@x.com",
    password := some "p2", avatarPath := some "av.png", coverImagePath := none }

/-- The user record `registerUser envEx dbEx regReqEx` creates. -/
def bobEx : User :=
  { id := 2, username := "bob", email := "bob@x.com", fullName := "Bob B",
    password := hashPw "p2", avatar := "url:av.png", coverImage := "",
    refreshToken := none }

/-- The database state after `registerUser envEx dbEx regReqEx`. -/
def dbRegEx : DB := { users := [aliceEx, bobEx], nextId := 3, nextNonce := 1 }

/-- The response of `registerUser envEx dbEx regReqEx`. -/
def regRespEx : RegisterResponse := { status := 201, user := selectSafe bobEx }

/-- A registration request in which the username field is entirely absent
while the supplied fields are non-blank. -/
def regReqNoUserEx : RegisterReq :=
  { fullName := some "Bob B", username := none, email := some "bob@x.com",
    password := some "p2", avatarPath := some "av.png", coverImagePath := none }

/-- The environment `envEx` with the persistence fault injected: every
`save` fails, so `generateAccessAndRefreshTokens` fails. -/
def envSaveFailEx : Env := { envEx with saveFails := true }

/-- The single error `generateAccessAndRefreshTokens` can raise. -/
def genFailErrEx : ApiError :=
  ⟨500, "something went wrong while generating refresh and access tokens"⟩

/-- Looking a user up in a list transformed by an id-preserving function is
the same as transforming the result of the lookup. -/
theorem findById_users_map (l : List User) (i : Nat) (f : User → User)
    (hf : ∀ u, (f u).id = u.id) :
    (l.map f).find? (fun u => u.id = i) = (l.find? (fun u => u.id = i)).map f := by
  rw [List.find?_map]
  have hp : ((fun u => decide (u.id = i)) ∘ f) = (fun u : User => decide (u.id = i)) := by
    funext u
    simp [Function.comp, hf]
  rw [hp]

/-- The replacement function of `replaceUser` preserves ids. -/
theorem replaceUser_fun_id_pres (w : User) (v : User) :
    ((if v.id = w.id then w else v) : User).id = v.id := by
  by_cases h : v.id = w.id
  · simp [h]
  · simp [h]

/-- A user found by id has that id. -/
theorem findById_id_eq (db : DB) (i : Nat) (u : User)
    (h : findById db i = some u) : u.id = i := by
  have := List.find?_some h
  exact of_decide_eq_true this

/-- A user found by id is a member of the collection. -/
theorem findById_mem (db : DB) (i : Nat) (u : User)
    (h : findById db i = some u) : u ∈ db.users :=
  List.mem_of_find?_eq_some h

/-- After replacing the record that has the id of `w`, looking that id up
returns `w`. -/
theorem findById_replaceUser (db : DB) (i : Nat) (user w : User)
    (hfind : findById db i = some user) (hw : w.id = user.id) :
    (replaceUser db.users w).find? (fun u => u.id = i) = some w := by
  unfold replaceUser
  rw [findById_users_map _ _ _ (replaceUser_fun_id_pres w)]
  unfold findById at hfind
  rw [hfind]
  have hui : user.id = i := findById_id_eq db i user hfind
  simp [hw.symm]

/-- Success of `generateAccessAndRefreshTokens` characterized: the user
exists, the returned tokens are the two freshly signed ones, and the new
state stores the returned refresh token on the user record and bumps the
freshness counter by two. -/
theorem generate_ok_elim (env : Env) (now : Nat) (db : DB) (userId : Nat)
    (a r : Token) (db1 : DB)
    (h : generateAccessAndRefreshTokens env now db userId =
      Except.ok ((a, r), db1)) :
    ∃ user, findById db userId = some user ∧
      a = sign user.id env.accessSecret env.accessTtl now db.nextNonce ∧
      r = sign user.id env.refreshSecret env.refreshTtl now (db.nextNonce + 1) ∧
      db1 = { db with
        users := replaceUser db.users { user with refreshToken := some r },
        nextNonce := db.nextNonce + 2 } := by
  unfold generateAccessAndRefreshTokens generateTokensTry saveUser at h
  cases hu : findById db userId with
  | none => rw [hu] at h; simp at h
  | some user =>
    rw [hu] at h
    cases hs : env.signFails with
    | true => rw [hs] at h; simp at h
    | false =>
      rw [hs] at h
      cases hsv : env.saveFails with
      | true => simp [hsv] at h
      | false =>
        simp [hsv] at h
        obtain ⟨⟨ha, hr⟩, hdb⟩ := h
        subst ha
        subst hr
        subst hdb
        exact ⟨user, rfl, rfl, rfl, rfl⟩

/-- Every failure of `generateAccessAndRefreshTokens` is the single 500
error the catch block constructs. -/
theorem generate_error_elim (env : Env) (now : Nat) (db : DB) (userId : Nat)
    (e : ApiError)
    (h : generateAccessAndRefreshTokens env now db userId = Except.error e) :
    e = ⟨500,
      "something went wrong while generating refresh and access tokens"⟩ := by
  unfold generateAccessAndRefreshTokens at h
  cases hg : generateTokensTry env now db userId with
  | none => rw [hg] at h; simp at h; exact h.symm
  | some r => rw [hg] at h; simp at h

/-- The stored-token mismatch branch of the `try` block of
`refreshAccessToken`: a verified token naming an existing user whose
stored token differs is rejected with the anti-replay error. -/
theorem refreshTry_mismatch (env : Env) (now : Nat) (db : DB)
    (incoming : Token) (uid : Nat) (user : User)
    (hverify : verify incoming env.refreshSecret now = some uid)
    (huser : findById db uid = some user)
    (hmismatch : user.refreshToken ≠ some incoming) :
    refreshAccessTokenTry env now db incoming =
      (db, Except.error ⟨401, "refresh token is expired or used"⟩) := by
  simp only [refreshAccessTokenTry, hverify, huser]
  simp [hmismatch]

/-- Claim C1: a presented refresh token that passes signature/expiry
verification and names an existing user, but differs byte-for-byte from
the value stored on that user record, makes `refreshAccessToken` reject
with 401 "refresh token is expired or used", leaving the state unchanged
(no new token pair is issued). -/
theorem C1_superseded_token_rejected (env : Env) (now : Nat) (db : DB)
    (cookieToken bodyToken : Option Token) (incoming : Token) (uid : Nat)
    (user : User)
    (hpresent : cookieToken.orElse (fun _ => bodyToken) = some incoming)
    (hverify : verify incoming env.refreshSecret now = some uid)
    (huser : findById db uid = some user)
    (hmismatch : user.refreshToken ≠ some incoming) :
    refreshAccessToken env now db cookieToken bodyToken =
      (db, Except.error ⟨401, "refresh token is expired or used"⟩) := by
  simp only [refreshAccessToken, hpresent]
  exact refreshTry_mismatch env now db incoming uid user hverify huser hmismatch

/-- Claim C1, witness: a concrete cryptographically valid but superseded
token is rejected with the anti-replay error on a concrete state. -/
theorem C1_witness :
    refreshAccessToken envEx 0 dbEx (some tokStaleEx) none =
      (dbEx, Except.error ⟨401, "refresh token is expired or used"⟩) :=
  C1_superseded_token_rejected envEx 0 dbEx (some tokStaleEx) none tokStaleEx
    1 aliceEx (by decide) (by decide) (by decide) (by decide)

/-- Claim C2 (code bug): with a currently-valid refresh token — stored on
the user record, correctly signed, unexpired — the first
`refreshAccessToken` call does not return the fresh pair: the new pair is
minted and persisted (the state advances to `dbIssuedEx`, which stores the
new refresh token `rTokEx`), but the response build calls `res.staus(200)`
(a typo for `status`), the TypeError is caught by the catch-all, and the
caller receives 401 "res.staus is not a function" instead of the pair. -/
theorem C2_valid_first_refresh_rejected_by_staus_typo :
    refreshAccessToken envEx 0 dbEx (some tokEx) none =
      (dbIssuedEx, Except.error ⟨401, "res.staus is not a function"⟩) ∧
    (findById dbIssuedEx 1).map (fun u => u.refreshToken) =
      some (some rTokEx) := by
  decide

/-- Claim C7 (amended): when no refresh token is supplied at all, the
rejection is `ApiError(401, "unauthorized request")`, classified
`Unauthenticated` — not `BadRequest` — and it happens immediately: the
result is the same for every database state, every environment and every
time, so no signature verification and no user lookup can have been
consulted. -/
theorem C7_missing_token_rejected_unauthenticated (env : Env) (now : Nat)
    (db : DB) :
    refreshAccessToken env now db none none =
      (db, Except.error ⟨401, "unauthorized request"⟩) ∧
    kindOf ⟨401, "unauthorized request"⟩ = ErrorKind.unauthenticated :=
  ⟨rfl, rfl⟩

/-- Claim C7, counterexample: on a concrete state the missing-token
rejection carries status 401 and is classified `Unauthenticated`, not
`BadRequest` as the claim states. -/
theorem C7_counterexample :
    refreshAccessToken envEx 0 dbEx none none =
      (dbEx, Except.error ⟨401, "unauthorized request"⟩) ∧
    kindOf ⟨401, "unauthorized request"⟩ ≠ ErrorKind.badRequest := by
  decide

/-- Looking a user up after `logoutUser` returns the record with the
refresh-token slot cleared. -/
theorem logout_findById (db : DB) (userId : Nat) :
    findById (logoutUser db userId).1 userId =
      (findById db userId).map
        (fun u => { u with refreshToken := none }) := by
  unfold logoutUser findById
  rw [findById_users_map db.users userId _
    (fun u => by by_cases h : u.id = userId <;> simp [h])]
  cases hf : db.users.find? (fun u => u.id = userId) with
  | none => rfl
  | some u =>
    have hid : u.id = userId := findById_id_eq db userId u hf
    simp [hid]

/-- Claim C8: `revoke` is idempotent — `logoutUser` always completes with
a 200 response (also when the user holds no active token or does not
exist), running it a second time leaves the state of the first run
unchanged, and after it the stored refresh-token slot of the user is the
sentinel absent value. -/
theorem C8_revoke_idempotent (db : DB) (userId : Nat) :
    (logoutUser db userId).2 = Except.ok { status := 200 } ∧
    logoutUser (logoutUser db userId).1 userId =
      ((logoutUser db userId).1, Except.ok { status := 200 }) ∧
    findById (logoutUser db userId).1 userId =
      (findById db userId).map (fun u => { u with refreshToken := none }) := by
  refine ⟨rfl, ?_, logout_findById db userId⟩
  have hff : ((fun u : User =>
        if u.id = userId then { u with refreshToken := none } else u) ∘
      (fun u : User =>
        if u.id = userId then { u with refreshToken := none } else u)) =
      (fun u : User =>
        if u.id = userId then { u with refreshToken := none } else u) := by
    funext u
    by_cases h : u.id = userId
    · simp [Function.comp, h]
    · simp [Function.comp, h]
  unfold logoutUser
  simp only [List.map_map, hff]

/-- Claim C5: `logoutUser` (revoke) sets the stored refresh-token field of
the user to the sentinel absent value, and a subsequent
`refreshAccessToken` presenting the token that was stored before the
revoke is rejected — even though that token still passes its own
signature/expiry verification. -/
theorem C5_revoke_invalidates_token (env : Env) (now : Nat) (db : DB)
    (userId : Nat) (user : User) (t : Token)
    (huser : findById db userId = some user)
    (_hstored : user.refreshToken = some t)
    (hverify : verify t env.refreshSecret now = some userId) :
    findById (logoutUser db userId).1 userId =
      some { user with refreshToken := none } ∧
    refreshAccessToken env now (logoutUser db userId).1 (some t) none =
      ((logoutUser db userId).1,
       Except.error ⟨401, "refresh token is expired or used"⟩) := by
  have hfind : findById (logoutUser db userId).1 userId =
      some { user with refreshToken := none } := by
    rw [logout_findById db userId, huser]
    rfl
  refine ⟨hfind, ?_⟩
  have htry := refreshTry_mismatch env now (logoutUser db userId).1 t userId
    { user with refreshToken := none } hverify hfind (by simp)
  simp only [refreshAccessToken]
  exact htry

/-- Claim C5, witness: after revoking user 1 on a concrete state, the
stored slot is the sentinel absent value and presenting the
previously-stored (still cryptographically valid) token is rejected. -/
theorem C5_witness :
    findById (logoutUser dbEx 1).1 1 = some { aliceEx with refreshToken := none } ∧
    refreshAccessToken envEx 0 (logoutUser dbEx 1).1 (some tokEx) none =
      ((logoutUser dbEx 1).1,
       Except.error ⟨401, "refresh token is expired or used"⟩) :=
  C5_revoke_invalidates_token envEx 0 dbEx 1 aliceEx tokEx
    (by decide) (by decide) (by decide)

/-- Replacing the environment validator does not change
`generateAccessAndRefreshTokens`: its persistence write passes
`validateBeforeSave: false`, so the full-record validator is never
consulted. -/
theorem generate_validator_irrelevant (env : Env) (v : User → Bool)
    (now : Nat) (db : DB) (userId : Nat) :
    generateAccessAndRefreshTokens { env with validator := v } now db userId =
      generateAccessAndRefreshTokens env now db userId := rfl

/-- Claim C3: after a successful `generateAccessAndRefreshTokens` (issue),
the refresh token persisted on the user record equals the refresh token
returned to the caller; under the freshness of stored nonces it differs
from the value stored immediately before; and the persistence write skips
full-record validation — the same call succeeds identically even under a
validator rejecting every record. -/
theorem C3_issue_persists_returned_token (env : Env) (now : Nat) (db : DB)
    (userId : Nat) (user : User) (a r : Token) (db1 : DB)
    (hfresh : noncesFresh db = true)
    (huser : findById db userId = some user)
    (hok : generateAccessAndRefreshTokens env now db userId =
      Except.ok ((a, r), db1)) :
    findById db1 userId = some { user with refreshToken := some r } ∧
    user.refreshToken ≠ some r ∧
    generateAccessAndRefreshTokens
      { env with validator := fun _ => false } now db userId =
      Except.ok ((a, r), db1) := by
  obtain ⟨user2, hu2, _ha, hr, hdb1⟩ :=
    generate_ok_elim env now db userId a r db1 hok
  obtain rfl : user = user2 := by
    have h12 := huser.symm.trans hu2
    exact Option.some.inj h12
  refine ⟨?_, ?_, (generate_validator_irrelevant env (fun _ => false) now db userId).trans hok⟩
  · rw [hdb1]
    exact findById_replaceUser db userId user _ huser rfl
  · intro heq
    have hmem := findById_mem db userId user huser
    have hall := List.all_eq_true.mp hfresh user hmem
    rw [heq] at hall
    have hlt : r.nonce < db.nextNonce := by
      simpa using hall
    rw [hr] at hlt
    simp [sign] at hlt

/-- Claim C3, witness: issuing for user 1 on a concrete well-formed state
persists the returned refresh token, replaces the previously stored
`tokEx`, and succeeds identically under an always-rejecting validator. -/
theorem C3_witness :
    noncesFresh dbEx = true ∧
    findById dbEx 1 = some aliceEx ∧
    generateAccessAndRefreshTokens envEx 0 dbEx 1 =
      Except.ok ((aTokEx, rTokEx), dbIssuedEx) ∧
    (findById dbIssuedEx 1 = some { aliceEx with refreshToken := some rTokEx } ∧
     aliceEx.refreshToken ≠ some rTokEx ∧
     generateAccessAndRefreshTokens { envEx with validator := fun _ => false }
       0 dbEx 1 = Except.ok ((aTokEx, rTokEx), dbIssuedEx)) :=
  ⟨by decide, by decide, by decide,
   C3_issue_persists_returned_token envEx 0 dbEx 1 aliceEx aTokEx rTokEx
     dbIssuedEx (by decide) (by decide) (by decide)⟩

/-- Claim C4: the refresh-token slot of a user record is a single scalar
(`refreshToken : Option Token` — overwritten, never appended): a
successful issue rewrites the slot of the issued-for user to exactly the
returned token (last-writer-wins over whatever was stored), stores no
record anywhere else (the collection length is unchanged), and leaves
every other user record untouched.  Both operations that store refresh
tokens — login and refresh — write through this one code path. -/
theorem C4_single_slot_last_writer_wins (env : Env) (now : Nat) (db : DB)
    (userId : Nat) (a r : Token) (db1 : DB)
    (hok : generateAccessAndRefreshTokens env now db userId =
      Except.ok ((a, r), db1)) :
    (∃ user, findById db userId = some user ∧
      findById db1 userId = some { user with refreshToken := some r }) ∧
    db1.users.length = db.users.length ∧
    (∀ v ∈ db.users, v.id ≠ userId → v ∈ db1.users) := by
  obtain ⟨user, huser, _ha, _hr, hdb1⟩ :=
    generate_ok_elim env now db userId a r db1 hok
  have hwid : ({ user with refreshToken := some r } : User).id = userId := by
    have := findById_id_eq db userId user huser
    simpa using this
  refine ⟨⟨user, huser, ?_⟩, ?_, ?_⟩
  · rw [hdb1]
    exact findById_replaceUser db userId user _ huser rfl
  · rw [hdb1]
    exact List.length_map db.users _
  · intro v hv hvid
    rw [hdb1]
    have hne : ¬ v.id = ({ user with refreshToken := some r } : User).id := by
      rw [hwid]
      exact hvid
    have hmem : (if v.id = ({ user with refreshToken := some r } : User).id
        then ({ user with refreshToken := some r } : User) else v) ∈
        replaceUser db.users { user with refreshToken := some r } :=
      List.mem_map_of_mem _ hv
    rw [if_neg hne] at hmem
    exact hmem

/-- Claim C4, witness: a concrete successful issue overwrites the stored
token of user 1 with the returned one and adds no record to the
collection. -/
theorem C4_witness :
    generateAccessAndRefreshTokens envEx 0 dbEx 1 =
      Except.ok ((aTokEx, rTokEx), dbIssuedEx) ∧
    dbIssuedEx.users.length = dbEx.users.length ∧
    findById dbIssuedEx 1 = some { aliceEx with refreshToken := some rTokEx } :=
  ⟨by decide,
   (C4_single_slot_last_writer_wins envEx 0 dbEx 1 aTokEx rTokEx dbIssuedEx
     (by decide)).2.1,
   by decide⟩

/-- When `generateAccessAndRefreshTokens` fails inside `loginUser`, the
handler propagates the error unchanged (there is no try/catch on the login
path). -/
theorem login_issue_failure_propagates (env : Env) (now : Nat) (db : DB)
    (email username : Option String) (p : String) (userL : User)
    (e : ApiError)
    (hguard : (falsyStr username && falsyStr email) = false)
    (hlookup : findOneByUsernameOrEmail db username email = some userL)
    (hpw : isPasswordCorrect userL p = true)
    (hfail : generateAccessAndRefreshTokens env now db userL.id =
      Except.error e) :
    loginUser env now db email username (some p) = (db, Except.error e) := by
  simp only [loginUser, hguard, hlookup, hpw, hfail]
  simp

/-- When `generateAccessAndRefreshTokens` fails inside
`refreshAccessToken`, the surrounding catch rethrows it as a 401 with the
original message. -/
theorem refresh_issue_failure_rewrapped (env : Env) (now : Nat) (db : DB)
    (t : Token) (uid : Nat) (user : User) (e : ApiError)
    (hverify : verify t env.refreshSecret now = some uid)
    (hfind : findById db uid = some user)
    (hstored : user.refreshToken = some t)
    (hfail : generateAccessAndRefreshTokens env now db user.id =
      Except.error e) :
    refreshAccessToken env now db (some t) none =
      (db, Except.error ⟨401, e.message⟩) := by
  show refreshAccessTokenTry env now db t = (db, Except.error ⟨401, e.message⟩)
  simp only [refreshAccessTokenTry, hverify]
  simp only [hfind]
  simp [hstored, hfail]

/-- Claim C6 (amended): a failure inside issue
(`generateAccessAndRefreshTokens`) reaches the caller as `Internal` (500)
on the login path, but on the refresh path the catch-all wrapper of
`refreshAccessToken` reclassifies it as `Unauthenticated` (401),
preserving only the message. -/
theorem C6_issue_failure_classification (env : Env) (now : Nat) (db : DB)
    (email username : Option String) (p : String) (userL : User)
    (t : Token) (uid : Nat) (userR : User) (e : ApiError)
    (hguard : (falsyStr username && falsyStr email) = false)
    (hlookup : findOneByUsernameOrEmail db username email = some userL)
    (hpw : isPasswordCorrect userL p = true)
    (hfailL : generateAccessAndRefreshTokens env now db userL.id =
      Except.error e)
    (hverify : verify t env.refreshSecret now = some uid)
    (hfind : findById db uid = some userR)
    (hstored : userR.refreshToken = some t)
    (hfailR : generateAccessAndRefreshTokens env now db userR.id =
      Except.error e) :
    loginUser env now db email username (some p) = (db, Except.error e) ∧
    kindOf e = ErrorKind.internal ∧
    refreshAccessToken env now db (some t) none =
      (db, Except.error ⟨401, e.message⟩) ∧
    kindOf ⟨401, e.message⟩ = ErrorKind.unauthenticated := by
  refine ⟨login_issue_failure_propagates env now db email username p userL e
      hguard hlookup hpw hfailL, ?_,
    refresh_issue_failure_rewrapped env now db t uid userR e
      hverify hfind hstored hfailR, rfl⟩
  rw [generate_error_elim env now db userL.id e hfailL]
  rfl

/-- Claim C6, witness: with the persistence fault injected, a concrete
login fails with the 500 Internal issue error while a concrete refresh of
a currently-valid token fails with the same message wrapped as 401. -/
theorem C6_witness :
    loginUser envSaveFailEx 0 dbEx none (some "alice") (some "p1") =
      (dbEx, Except.error genFailErrEx) ∧
    kindOf genFailErrEx = ErrorKind.internal ∧
    refreshAccessToken envSaveFailEx 0 dbEx (some tokEx) none =
      (dbEx, Except.error ⟨401, genFailErrEx.message⟩) ∧
    kindOf ⟨401, genFailErrEx.message⟩ = ErrorKind.unauthenticated :=
  C6_issue_failure_classification envSaveFailEx 0 dbEx none (some "alice")
    "p1" aliceEx tokEx 1 aliceEx genFailErrEx (by decide) (by decide)
    (by decide) (by decide) (by decide) (by decide) (by decide) (by decide)

/-- Claim C6, counterexample: on the refresh path a persistence failure
inside issue reaches the caller with status 401 — classified
`Unauthenticated`, a caller-attributable kind — not `Internal` as the
claim states. -/
theorem C6_counterexample :
    (refreshAccessToken envSaveFailEx 0 dbEx (some tokEx) none).2 =
      Except.error
        ⟨401, "something went wrong while generating refresh and access tokens"⟩ ∧
    kindOf
      ⟨401, "something went wrong while generating refresh and access tokens"⟩ ≠
      ErrorKind.internal := by
  decide

/-- A successful `finishRegister` leaves the database it was given
unchanged and responds 201. -/
theorem finishRegister_ok (dbX : DB) (newId : Nat) (db1 : DB)
    (resp : RegisterResponse)
    (h : finishRegister dbX newId = (db1, Except.ok resp)) :
    db1 = dbX ∧ resp.status = 201 := by
  unfold finishRegister at h
  cases hc : findById dbX newId with
  | none =>
    rw [hc] at h
    simp at h
  | some u =>
    rw [hc] at h
    simp only [Prod.mk.injEq] at h
    obtain ⟨h1, h2⟩ := h
    exact ⟨h1.symm, by rw [← Except.ok.inj h2]⟩

/-- Claim C9: a successful registration creates the new user record with
the refresh-token field unset (the sentinel absent value), leaves the
pre-existing records as they were, and mints no token at all (the
freshness counter of the token codec is untouched); the 201 response
carries only the safe projection, which contains no token fields. -/
theorem C9_register_issues_no_token (env : Env) (db : DB) (req : RegisterReq)
    (db1 : DB) (resp : RegisterResponse)
    (hok : registerUser env db req = (db1, Except.ok resp)) :
    resp.status = 201 ∧
    db1.nextNonce = db.nextNonce ∧
    db1.users.dropLast = db.users ∧
    db1.users.getLast?.map (fun u => u.refreshToken) = some none := by
  unfold registerUser registerFromLookup at hok
  repeat' split at hok
  all_goals try (exfalso; revert hok; simp; done)
  obtain ⟨hdb1, hstatus⟩ := finishRegister_ok _ _ _ _ hok
  subst hdb1
  exact ⟨hstatus, rfl, List.dropLast_concat, by rw [List.getLast?_concat]; rfl⟩

/-- Claim C9, witness: a concrete successful registration appends a
record with no refresh token, mints no token, and responds 201 with the
safe projection. -/
theorem C9_witness :
    registerUser envEx dbEx regReqEx = (dbRegEx, Except.ok regRespEx) ∧
    (regRespEx.status = 201 ∧
     dbRegEx.nextNonce = dbEx.nextNonce ∧
     dbRegEx.users.dropLast = dbEx.users ∧
     dbRegEx.users.getLast?.map (fun u => u.refreshToken) = some none) :=
  ⟨by decide,
   C9_register_issues_no_token envEx dbEx regReqEx dbRegEx regRespEx (by decide)⟩

/-- A field is blank for the required-field check exactly when it is
supplied and trims to the empty string. -/
theorem fieldBlank_eq_true_iff (x : Option String) :
    fieldBlank x = true ↔ ∃ s, x = some s ∧ jsTrim s = "" := by
  cases x with
  | none => simp [fieldBlank]
  | some s => simp [fieldBlank]

/-- The required-field check fires exactly when one of the four fields is
supplied and trims to the empty string. -/
theorem any_fieldBlank_iff (a b c d : Option String) :
    ([a, b, c, d].any fieldBlank = true) ↔
      ∃ s, ((a = some s ∨ b = some s ∨ c = some s ∨ d = some s) ∧
        jsTrim s = "") := by
  simp only [List.any_cons, List.any_nil, Bool.or_eq_true, Bool.or_false,
    fieldBlank_eq_true_iff]
  constructor
  · rintro (⟨s, hs, ht⟩ | ⟨s, hs, ht⟩ | ⟨s, hs, ht⟩ | ⟨s, hs, ht⟩)
    · exact ⟨s, Or.inl hs, ht⟩
    · exact ⟨s, Or.inr (Or.inl hs), ht⟩
    · exact ⟨s, Or.inr (Or.inr (Or.inl hs)), ht⟩
    · exact ⟨s, Or.inr (Or.inr (Or.inr hs)), ht⟩
  · rintro ⟨s, hs | hs | hs | hs, ht⟩
    · exact Or.inl ⟨s, hs, ht⟩
    · exact Or.inr (Or.inl ⟨s, hs, ht⟩)
    · exact Or.inr (Or.inr (Or.inl ⟨s, hs, ht⟩))
    · exact Or.inr (Or.inr (Or.inr ⟨s, hs, ht⟩))

/-- `finishRegister` never raises the required-field error. -/
theorem finishRegister_ne_emptyFieldsError (dbX : DB) (newId : Nat) :
    (finishRegister dbX newId).2 ≠
      Except.error ⟨400, "all fields are required"⟩ := by
  unfold finishRegister
  cases hc : findById dbX newId with
  | none => simp
  | some u => simp

/-- No stage of `registerUser` after the required-field check raises the
required-field error. -/
theorem registerFromLookup_ne_emptyFieldsError (env : Env) (db : DB)
    (req : RegisterReq) :
    (registerFromLookup env db req).2 ≠
      Except.error ⟨400, "all fields are required"⟩ := by
  unfold registerFromLookup
  repeat' split
  all_goals try (simp; done)
  exact finishRegister_ne_emptyFieldsError _ _

/-- Claim C10: the required-field check of `registerUser` rejects exactly
when some supplied field trims to the empty string; an entirely absent
field does not trigger it (`field?.trim() === ""` is false on
`undefined`), and whenever no supplied field is blank the handler
proceeds past the check to the duplicate-user lookup stage. -/
theorem C10_empty_check_ignores_absent_fields (env : Env) (db : DB)
    (req : RegisterReq) :
    ((registerUser env db req).2 =
        Except.error ⟨400, "all fields are required"⟩ ↔
      ∃ s, ((req.fullName = some s ∨ req.username = some s ∨
          req.email = some s ∨ req.password = some s) ∧ jsTrim s = "")) ∧
    fieldBlank none = false ∧
    ([req.fullName, req.username, req.email, req.password].any fieldBlank
        = false →
      registerUser env db req = registerFromLookup env db req) := by
  have hpass : [req.fullName, req.username, req.email, req.password].any
      fieldBlank = false →
      registerUser env db req = registerFromLookup env db req := by
    intro h
    unfold registerUser
    simp [h]
  refine ⟨?_, rfl, hpass⟩
  constructor
  · intro herr
    by_cases hany : [req.fullName, req.username, req.email, req.password].any
        fieldBlank = true
    · exact (any_fieldBlank_iff _ _ _ _).mp hany
    · exfalso
      have hfalse : [req.fullName, req.username, req.email, req.password].any
          fieldBlank = false := by
        cases hb : [req.fullName, req.username, req.email, req.password].any
            fieldBlank
        · rfl
        · exact absurd hb hany
      rw [hpass hfalse] at herr
      exact registerFromLookup_ne_emptyFieldsError env db req herr
  · rintro ⟨s, hs, ht⟩
    have hany : [req.fullName, req.username, req.email, req.password].any
        fieldBlank = true :=
      (any_fieldBlank_iff _ _ _ _).mpr ⟨s, hs, ht⟩
    unfold registerUser
    simp [hany]

/-- Claim C10, witness: a concrete request with the username entirely
absent and every supplied field non-blank passes the required-field check
and reaches the duplicate-user lookup stage. -/
theorem C10_witness :
    registerUser envEx dbEx regReqNoUserEx =
      registerFromLookup envEx dbEx regReqNoUserEx ∧
    (registerUser envEx dbEx regReqNoUserEx).2 ≠
      Except.error ⟨400, "all fields are required"⟩ := by
  refine ⟨(C10_empty_check_ignores_absent_fields envEx dbEx regReqNoUserEx).2.2
    (by decide), ?_⟩
  intro h
  obtain ⟨s, hs, ht⟩ :=
    (C10_empty_check_ignores_absent_fields envEx dbEx regReqNoUserEx).1.mp h
  rcases hs with h1 | h1 | h1 | h1
  · simp only [regReqNoUserEx, Option.some.injEq] at h1
    subst h1
    exact absurd ht (by decide)
  · simp [regReqNoUserEx] at h1
  · simp only [regReqNoUserEx, Option.some.injEq] at h1
    subst h1
    exact absurd ht (by decide)
  · simp only [regReqNoUserEx, Option.some.injEq] at h1
    subst h1
    exact absurd ht (by decide)

end VideoPlatform
